import Mathlib

/-!
# Verification of the mini-MMORPG client (`src/game.js`)

A shallow embedding of the `GameClient` class from `src/game.js`.

Modelling conventions:
* JavaScript numbers that hold pixel coordinates and sizes are modelled as `ℚ`
  (all arithmetic performed on them by the client — subtraction, halving,
  `Math.max`/`Math.min` — is exact on the values involved).
* Millisecond timestamps (`Date.now()`) are modelled as `Nat`.
* JavaScript objects used as key→value tables that the code iterates over
  (`this.players`) are association lists `List (String × α)` with JS object
  semantics (unique keys, insertion order, overwrite-in-place); tables that are
  only ever accessed by key (`this.avatars`, `this.avatarImages`,
  `this.activeEmotes`) are modelled as `String → Option α`.
* A JS `Set` of key codes is a duplicate-free `List String` in insertion order.
* The canvas 2D context is modelled by the list of drawing operations the code
  issues (`CanvasOp`); a separate interpreter (`paintedSprites`) applies the
  `save`/`scale`/`restore` transform state to recover the device-space
  rectangles actually painted for sprites.
* `setTimeout` callbacks scheduled by `showEmote` are modelled as a list of
  pending `(playerId, fireTime)` removals in `emoteTimers`; `runDueTimers`
  executes every callback whose time has arrived.
-/

namespace MiniMMO

/-- Chat message categories (the `type` argument of `addChatMessage`). -/
inductive ChatKind where
  | own
  | other
  | system
deriving DecidableEq, Repr

/-- One entry of `this.chatMessages` (built in `addChatMessage`,
`src/game.js:306-313`). The timestamp string comes from
`toLocaleTimeString` and is kept abstract. -/
structure ChatMessage where
  username : String
  message : String
  timestamp : String
  kind : ChatKind
deriving DecidableEq, Repr

/-- `this.maxChatMessages` (`src/game.js:37`). -/
def maxChatMessages : Nat := 50

/-- `addChatMessage` (`src/game.js:306-323`): push the new entry, then if the
log exceeds `maxChatMessages`, `shift()` the oldest (first) entry off. -/
def addChatMessage (msgs : List ChatMessage) (m : ChatMessage) : List ChatMessage :=
  let pushed := msgs ++ [m]
  if maxChatMessages < pushed.length then pushed.tail else pushed

/-- `this.camera` (`src/game.js:20-25`). -/
structure Camera where
  x : ℚ
  y : ℚ
  width : ℚ
  height : ℚ
deriving DecidableEq, Repr

/-- `updateCamera` (`src/game.js:468-479`) as a pure function of the canvas
size, the focus position `this.myPosition` and `this.worldSize`:
width/height are copied from the canvas, the origin is centred on the focus
and then clamped by `Math.max(0, Math.min(v, worldSize - extent))`. -/
def updateCamera (canvasWidth canvasHeight : ℚ) (myPosition : ℚ × ℚ)
    (worldSize : ℚ) : Camera :=
  let width := canvasWidth
  let height := canvasHeight
  let x0 := myPosition.1 - width / 2
  let y0 := myPosition.2 - height / 2
  { x := max 0 (min x0 (worldSize - width))
    y := max 0 (min y0 (worldSize - height))
    width := width
    height := height }

/-- One player record as stored in `this.players` (fields read by the client:
`id`, `username`, `x`, `y`, `facing`, `animationFrame`, `avatar`). `facing`
and `avatar` are the raw strings sent by the server; `animationFrame` may be
absent (the code reads `player.animationFrame || 0`). -/
structure Player where
  id : String
  username : String
  x : ℚ
  y : ℚ
  facing : String
  animationFrame : Option Nat
  avatar : String
deriving DecidableEq, Repr

/-- An avatar definition as stored in `this.avatars`: a name and a
direction→frame-source table (`avatar.frames[direction]`). -/
structure Avatar where
  name : String
  frames : String → Option (List String)

/-- A decoded avatar frame image (`avatarImg` in `drawAvatar`); DOM image
width/height are non-negative integers. -/
structure LoadedImage where
  width : Nat
  height : Nat
deriving DecidableEq, Repr

/-- One entry of `this.activeEmotes` (`src/game.js:254-257`). -/
structure EmoteRecord where
  emoteKind : String
  startTime : Nat
deriving DecidableEq, Repr

/-- `this.worldImage` once `loadWorldMap` has created the `Image` object;
`complete` records whether the image has finished loading (`onload` fired). -/
structure WorldImage where
  complete : Bool
deriving DecidableEq, Repr

/-- Outbound WebSocket messages (`socket.send(JSON.stringify(...))`) relevant
to the movement mapper: `{action: 'move', direction}` and `{action: 'stop'}`
(`src/game.js:132-149`). -/
inductive ClientMessage where
  | move (direction : String)
  | stop
deriving DecidableEq, Repr

/-- JS object property read `obj[k]` on an association-list table. -/
def objGet {α : Type} (l : List (String × α)) (k : String) : Option α :=
  match l with
  | [] => none
  | (k', v) :: rest => if k = k' then some v else objGet rest k

/-- JS object property write `obj[k] = v`: overwrite in place if the key
exists, otherwise append (JS objects keep insertion order for string keys). -/
def objSet {α : Type} (l : List (String × α)) (k : String) (v : α) :
    List (String × α) :=
  match l with
  | [] => [(k, v)]
  | (k', v') :: rest =>
      if k' = k then (k, v) :: rest else (k', v') :: objSet rest k v

/-- JS `delete obj[k]`. -/
def objDelete {α : Type} (l : List (String × α)) (k : String) :
    List (String × α) :=
  l.filter (fun kv => decide (kv.1 ≠ k))

/-- The object spread `{ ...a, ...b }` (`src/game.js:424`): start from `a`
and write every property of `b` over it. -/
def mergeObjects {α : Type} (a b : List (String × α)) : List (String × α) :=
  b.foldl (fun acc kv => objSet acc kv.1 kv.2) a

/-- JS `Set.add`: a no-op when the element is present, else appended. -/
def setAdd (l : List String) (x : String) : List String :=
  if x ∈ l then l else l ++ [x]

/-- JS `Set.delete`. -/
def setDelete (l : List String) (x : String) : List String :=
  l.filter (fun y => decide (y ≠ x))

/-- The mutable fields of the `GameClient` instance (`src/game.js:3-48`)
used by the core client logic. The WebSocket is reduced to its readiness
(`socket && socket.readyState === WebSocket.OPEN`), and the canvas to its
size; `emoteTimers` holds the pending `setTimeout` emote removals. -/
structure GameState where
  worldImage : Option WorldImage
  worldSize : ℚ
  socketOpen : Bool
  myPlayerId : Option String
  players : List (String × Player)
  avatars : String → Option Avatar
  myPosition : ℚ × ℚ
  camera : Camera
  avatarImages : String → Option (String → Option (Nat → Option LoadedImage))
  activeEmotes : String → Option EmoteRecord
  emoteTimers : List (String × Nat)
  chatMessages : List ChatMessage
  pressedKeys : List String
  canvasWidth : ℚ
  canvasHeight : ℚ

/-- The constructor state (`src/game.js:3-48`), after `setupCanvas` has set
the canvas to the window size. -/
def initialState (canvasWidth canvasHeight : ℚ) : GameState where
  worldImage := none
  worldSize := 2048
  socketOpen := false
  myPlayerId := none
  players := []
  avatars := fun _ => none
  myPosition := (0, 0)
  camera := { x := 0, y := 0, width := 0, height := 0 }
  avatarImages := fun _ => none
  activeEmotes := fun _ => none
  emoteTimers := []
  chatMessages := []
  pressedKeys := []
  canvasWidth := canvasWidth
  canvasHeight := canvasHeight

/-- `loadWorldMap` (`src/game.js:75-85`): assigns `this.worldImage = new
Image()` immediately; the image has not finished loading yet (`onload` has
not fired). -/
def loadWorldMap (g : GameState) : GameState :=
  { g with worldImage := some { complete := false } }

/-- The `worldImage.onload` callback firing (`src/game.js:77-80`), before it
calls `updateCamera` and `render`. -/
def worldMapLoaded (g : GameState) : GameState :=
  { g with worldImage := some { complete := true } }

/-- `this.movementKeys` (`src/game.js:41-46`): the key-code → direction
lookup. -/
def movementKeys (code : String) : Option String :=
  if code = "ArrowUp" then some "up"
  else if code = "ArrowDown" then some "down"
  else if code = "ArrowLeft" then some "left"
  else if code = "ArrowRight" then some "right"
  else none

/-- `sendMoveCommand` (`src/game.js:132-140`): the messages put on the wire
(empty when the socket is not open). -/
def sendMoveCommand (g : GameState) (direction : String) : List ClientMessage :=
  if g.socketOpen then [ClientMessage.move direction] else []

/-- `sendStopCommand` (`src/game.js:142-149`). -/
def sendStopCommand (g : GameState) : List ClientMessage :=
  if g.socketOpen then [ClientMessage.stop] else []

/-- `event.code.startsWith('Digit')` (`src/game.js:100`), by inspecting the
code's leading characters. -/
def isDigitCode (code : String) : Bool :=
  match code.data with
  | 'D' :: 'i' :: 'g' :: 'i' :: 't' :: _ => true
  | _ => false

/-- `handleKeyDown` (`src/game.js:98-117`): digit keys are left to the emote
system, unmapped keys are ignored, a mapped key is added to `pressedKeys`
and a move command for its direction is sent. Returns the new state and the
outbound messages. -/
def handleKeyDown (g : GameState) (code : String) :
    GameState × List ClientMessage :=
  if isDigitCode code then (g, [])
  else
    match movementKeys code with
    | none => (g, [])
    | some direction =>
        let g' := { g with pressedKeys := setAdd g.pressedKeys code }
        (g', sendMoveCommand g' direction)

/-- `handleKeyUp` (`src/game.js:119-130`): remove the key from
`pressedKeys`; send a stop command only when no movement key remains held. -/
def handleKeyUp (g : GameState) (code : String) :
    GameState × List ClientMessage :=
  match movementKeys code with
  | none => (g, [])
  | some _ =>
      let g' := { g with pressedKeys := setDelete g.pressedKeys code }
      if g'.pressedKeys.length = 0 then (g', sendStopCommand g') else (g', [])

/-- A raw keyboard event as dispatched to the two listeners installed by
`setupKeyboardControls` (`src/game.js:88-96`). -/
inductive KeyEvent where
  | down (code : String)
  | up (code : String)
deriving DecidableEq, Repr

/-- Run a sequence of keyboard events, collecting every outbound message in
order. -/
def runKeyEvents (g : GameState) : List KeyEvent → GameState × List ClientMessage
  | [] => (g, [])
  | e :: rest =>
      let step :=
        match e with
        | KeyEvent.down c => handleKeyDown g c
        | KeyEvent.up c => handleKeyUp g c
      let tailRun := runKeyEvents step.1 rest
      (tailRun.1, step.2 ++ tailRun.2)

/-- `this.emoteDuration` (`src/game.js:33`), in milliseconds. -/
def emoteDuration : Nat := 3000

/-- `showEmote` (`src/game.js:253-266`): overwrite the player's active emote
record with the current time and schedule a removal `emoteDuration` later.
The previously scheduled removal, if any, is *not* cancelled: the new
`setTimeout` is simply appended to the pending timers. -/
def showEmote (g : GameState) (playerId emoteKind : String) (now : Nat) :
    GameState :=
  { g with
    activeEmotes := fun id =>
      if id = playerId then some { emoteKind := emoteKind, startTime := now }
      else g.activeEmotes id
    emoteTimers := g.emoteTimers ++ [(playerId, now + emoteDuration)] }

/-- The body of the `setTimeout` callback in `showEmote`
(`src/game.js:260-263`): `delete this.activeEmotes[playerId]` (a no-op when
the key is already absent). -/
def fireEmoteTimer (g : GameState) (playerId : String) : GameState :=
  { g with
    activeEmotes := fun id => if id = playerId then none else g.activeEmotes id }

/-- Advance the clock to `now`: every scheduled emote-removal callback whose
time has arrived runs, in scheduling order, and leaves the pending queue. -/
def runDueTimers (g : GameState) (now : Nat) : GameState :=
  let due := g.emoteTimers.filter (fun t => decide (t.2 ≤ now))
  let rest := g.emoteTimers.filter (fun t => decide (¬ t.2 ≤ now))
  due.foldl (fun s t => fireEmoteTimer s t.1) { g with emoteTimers := rest }

/-- The elapsed/duration ratio computed by `drawEmote` (`src/game.js:599-600`)
for an entity, or `none` when no emote record is active for it — the
client's notion of an emote progress query. -/
def emoteProgress (g : GameState) (playerId : String) (now : Nat) : Option ℚ :=
  match g.activeEmotes playerId with
  | none => none
  | some e => some (((now : ℚ) - (e.startTime : ℚ)) / (emoteDuration : ℚ))

/-- `updateMyPosition` (`src/game.js:458-465`). -/
def updateMyPosition (g : GameState) : GameState :=
  match g.myPlayerId with
  | none => g
  | some pid =>
      match objGet g.players pid with
      | some p => { g with myPosition := (p.x, p.y) }
      | none => g

/-- `updateCamera` applied to the client state (`src/game.js:468-479`). -/
def updateCameraState (g : GameState) : GameState :=
  { g with
    camera := updateCamera g.canvasWidth g.canvasHeight g.myPosition g.worldSize }

/-- The `players_moved` branch of `handleMessage` (`src/game.js:423-428`):
`this.players = { ...this.players, ...message.players }`, then refresh the
local position and the camera (the `render()` call has no state effect). -/
def handlePlayersMoved (g : GameState) (update : List (String × Player)) :
    GameState :=
  updateCameraState (updateMyPosition { g with players := mergeObjects g.players update })

/-- The `player_left` branch of `handleMessage` (`src/game.js:438-446`):
look the player up, delete it and its active emote, and post a system chat
message when the player was present. `ts` stands for the wall-clock
timestamp string `addChatMessage` embeds. -/
def handlePlayerLeft (g : GameState) (playerId ts : String) : GameState :=
  let leftPlayer := objGet g.players playerId
  let g' := { g with
    players := objDelete g.players playerId
    activeEmotes := fun id => if id = playerId then none else g.activeEmotes id }
  match leftPlayer with
  | some p =>
      { g' with
        chatMessages := addChatMessage g'.chatMessages
          { username := "System", message := p.username ++ " left the game."
            timestamp := ts, kind := ChatKind.system } }
  | none => g'

/-- Drawing operations issued on the canvas 2D context during `render`.
`drawSprite` records `ctx.drawImage(avatarImg, x, y, w, h)` together with
which frame image was passed, identified by `(avatarName, direction,
frameIndex)`; `emoteText` records the emoji `fillText` pair of `drawEmote`
with the elapsed/duration progress the bounce and alpha derive from
(pure style-property writes such as `fillStyle` are not recorded). -/
inductive CanvasOp where
  | clearRect (x y w h : ℚ)
  | drawWorld (sx sy sw sh dx dy dw dh : ℚ)
  | save
  | restore
  | scale (x y : ℚ)
  | drawSprite (frame : String × String × Nat) (x y w h : ℚ)
  | strokeTextOp (text : String) (x y : ℚ)
  | fillTextOp (text : String) (x y : ℚ)
  | emoteText (emoji : String) (x y : ℚ) (progress : ℚ)
deriving DecidableEq, Repr

/-- The `emoteEmojis` table of `drawEmote` (`src/game.js:615-622`). -/
def emoteEmojis (t : String) : Option String :=
  if t = "wave" then some "👋"
  else if t = "dance" then some "💃"
  else if t = "jump" then some "🦘"
  else if t = "heart" then some "❤️"
  else if t = "laugh" then some "😂"
  else if t = "thumbsup" then some "👍"
  else none

/-- `drawEmote` (`src/game.js:595-633`): nothing when no emote record is
active for the player; otherwise one emoji draw whose bounce offset and
alpha are functions of `progress = (Date.now() - startTime) /
emoteDuration`. -/
def drawEmoteOps (g : GameState) (playerId : String) (screenX screenY : ℚ)
    (now : Nat) : List CanvasOp :=
  match g.activeEmotes playerId with
  | none => []
  | some emote =>
      let progress : ℚ := ((now : ℚ) - (emote.startTime : ℚ)) / (emoteDuration : ℚ)
      let emoji := (emoteEmojis emote.emoteKind).getD "😊"
      [CanvasOp.save, CanvasOp.emoteText emoji screenX screenY progress,
       CanvasOp.restore]

/-- `drawAvatar` (`src/game.js:532-593`): cull when more than 50 px outside
the camera rectangle; require the avatar definition and its image cache
entry; pick `frameDirection` (`west` uses the `east` frames); require the
frame; scale to a 32 px base height preserving the aspect ratio; for `west`
apply `ctx.scale(-1, 1)` and draw at `-screenX - width/2`, otherwise draw at
`screenX - width/2`; then the outlined name label and the emote overlay. -/
def drawAvatarOps (g : GameState) (player : Player) (now : Nat) : List CanvasOp :=
  let screenX := player.x - g.camera.x
  let screenY := player.y - g.camera.y
  if screenX < -50 ∨ screenX > g.camera.width + 50 ∨
      screenY < -50 ∨ screenY > g.camera.height + 50 then []
  else
    match g.avatars player.avatar, g.avatarImages player.avatar with
    | some _, some images =>
        let frameIndex := player.animationFrame.getD 0
        let frameDirection := if player.facing = "west" then "east" else player.facing
        match images frameDirection with
        | none => []
        | some frames =>
            match frames frameIndex with
            | none => []
            | some avatarImg =>
                let height : ℚ := 32
                let width : ℚ := 32 * ((avatarImg.width : ℚ) / (avatarImg.height : ℚ))
                let spriteOps : List CanvasOp :=
                  if player.facing = "west" then
                    [CanvasOp.save, CanvasOp.scale (-1) 1,
                     CanvasOp.drawSprite (player.avatar, frameDirection, frameIndex)
                       (-screenX - width / 2) (screenY - height / 2) width height,
                     CanvasOp.restore]
                  else
                    [CanvasOp.save,
                     CanvasOp.drawSprite (player.avatar, frameDirection, frameIndex)
                       (screenX - width / 2) (screenY - height / 2) width height,
                     CanvasOp.restore]
                let textY := screenY - height / 2 - 5
                spriteOps ++
                  [CanvasOp.save, CanvasOp.strokeTextOp player.username screenX textY,
                   CanvasOp.fillTextOp player.username screenX textY, CanvasOp.restore] ++
                  drawEmoteOps g player.id screenX (screenY - height / 2 - 20) now
    | _, _ => []

/-- `drawAvatars` (`src/game.js:525-530`): draw every player, in table
order. -/
def drawAvatars (g : GameState) (now : Nat) : List CanvasOp :=
  (g.players.map (fun kv => drawAvatarOps g kv.2 now)).flatten

/-- `render` (`src/game.js:508-523`): return immediately when
`this.worldImage` is null (no operation issued); otherwise clear the canvas,
draw the camera sub-rectangle of the world image scaled to the full canvas,
and draw the avatars. Note the guard tests only that the `Image` object
exists, not that it has finished loading. -/
def render (g : GameState) (now : Nat) : List CanvasOp :=
  match g.worldImage with
  | none => []
  | some _ =>
      CanvasOp.clearRect 0 0 g.canvasWidth g.canvasHeight ::
      CanvasOp.drawWorld g.camera.x g.camera.y g.camera.width g.camera.height
        0 0 g.camera.width g.camera.height ::
      drawAvatars g now

/-- A sprite draw as it lands on the surface, in device coordinates:
`left`/`top` of the painted rectangle after applying the context transform,
and whether the content is horizontally mirrored. -/
structure PaintedSprite where
  frame : String × String × Nat
  left : ℚ
  top : ℚ
  width : ℚ
  height : ℚ
  mirrored : Bool
deriving DecidableEq, Repr

/-- Interpret a canvas-operation list, tracking the horizontal scale of the
current transform through `save`/`scale`/`restore` (the client only ever
applies `scale(-1, 1)`, so the vertical axis is untouched): each
`drawSprite` at local x-span `[x, x + w]` paints the device x-span between
`sx*x` and `sx*(x + w)`, mirrored when `sx` is negative. -/
def paintedSpritesAux : List CanvasOp → ℚ → List ℚ → List PaintedSprite
  | [], _, _ => []
  | op :: rest, sx, stack =>
      match op with
      | CanvasOp.save => paintedSpritesAux rest sx (sx :: stack)
      | CanvasOp.restore =>
          match stack with
          | [] => paintedSpritesAux rest sx []
          | s :: st => paintedSpritesAux rest s st
      | CanvasOp.scale a _ => paintedSpritesAux rest (sx * a) stack
      | CanvasOp.drawSprite f x y w h =>
          { frame := f, left := min (sx * x) (sx * (x + w)), top := y,
            width := w, height := h, mirrored := decide (sx < 0) } ::
            paintedSpritesAux rest sx stack
      | _ => paintedSpritesAux rest sx stack

/-- The sprites painted by an operation list, starting from the identity
transform. -/
def paintedSprites (ops : List CanvasOp) : List PaintedSprite :=
  paintedSpritesAux ops 1 []

/-- The per-key result of overriding an old value with an update value, as
the object spread does: the update's entry if present, the old one
otherwise. -/
def jsOr {α : Type} (upd old : Option α) : Option α :=
  match upd with
  | some v => some v
  | none => old

/-! ## Concrete states used to evaluate the theorems -/

/-- The client state once the socket is open. -/
def inputReady : GameState :=
  { initialState 800 600 with socketOpen := true }

/-- The state after triggering an emote for player `E` at t = 0 ms and
re-triggering at t = 1000 ms. -/
def emoteRetriggerState : GameState :=
  showEmote (showEmote (initialState 800 600) "E" "wave" 0) "E" "dance" 1000

/-- A sample chat message for evaluating the chat-log theorems. -/
def sampleMsg : ChatMessage :=
  { username := "System", message := "hello", timestamp := "12:00"
    kind := ChatKind.system }

/-- The frame table of an avatar whose east frame 0 has been decoded as a
32×32 image. -/
def eastFrames : Nat → Option LoadedImage :=
  fun i => if i = 0 then some { width := 32, height := 32 } else none

/-- The image cache entry holding `eastFrames` under the `east` direction. -/
def eastImages : String → Option (Nat → Option LoadedImage) :=
  fun d => if d = "east" then some eastFrames else none

/-- The frame table of an avatar whose south frame 0 has been decoded. -/
def southFrames : Nat → Option LoadedImage :=
  fun i => if i = 0 then some { width := 32, height := 32 } else none

/-- The image cache entry holding `southFrames` under the `south`
direction. -/
def southImages : String → Option (Nat → Option LoadedImage) :=
  fun d => if d = "south" then some southFrames else none

/-- The avatar definition named `av` (its frame sources are irrelevant to
rendering, which reads the image cache). -/
def avDef : Avatar :=
  { name := "av", frames := fun _ => none }

/-- A client that has joined (one in-view player with a decoded avatar
frame) while `world.jpg` is still being fetched: `loadWorldMap` has not yet
been called here, so `worldImage` is still null. -/
def joinedBeforeLoad : GameState :=
  { initialState 800 600 with
    camera := { x := 0, y := 0, width := 800, height := 600 }
    players := [("p1",
      { id := "p1", username := "Ann", x := 100, y := 100, facing := "south"
        animationFrame := some 0, avatar := "av" })]
    avatars := fun n => if n = "av" then some avDef else none
    avatarImages := fun n => if n = "av" then some southImages else none }

/-- The same client right after `loadWorldMap` has created the `Image`
object, whose load has not completed. -/
def loadingState : GameState := loadWorldMap joinedBeforeLoad

/-- Players used to evaluate the partial-update theorem. -/
def pA : Player :=
  { id := "a", username := "Ann", x := 10, y := 20, facing := "south"
    animationFrame := some 0, avatar := "av" }

/-- `pA` after moving — the wholesale replacement record. -/
def pA2 : Player := { pA with x := 30, facing := "east" }

/-- A bystander player untouched by the update. -/
def pB : Player :=
  { id := "b", username := "Bob", x := 1, y := 2, facing := "north"
    animationFrame := none, avatar := "av" }

/-- A player first introduced by the partial update. -/
def pC : Player :=
  { id := "c", username := "Cyd", x := 5, y := 6, facing := "east"
    animationFrame := some 1, avatar := "av" }

/-- A roster holding `pA` and `pB`. -/
def rosterState : GameState :=
  { initialState 800 600 with players := [("a", pA), ("b", pB)] }

/-- A partial update replacing `a` and inserting `c`. -/
def moveUpdate : List (String × Player) := [("a", pA2), ("c", pC)]

/-- A client with one in-view west-facing player whose east frame 0 has
been decoded. -/
def westState : GameState :=
  { initialState 800 600 with
    camera := { x := 0, y := 0, width := 800, height := 600 }
    avatars := fun n => if n = "av" then some avDef else none
    avatarImages := fun n => if n = "av" then some eastImages else none }

/-- The west-facing player drawn in `westState`. -/
def westPlayer : Player :=
  { id := "p1", username := "Ann", x := 100, y := 100, facing := "west"
    animationFrame := some 0, avatar := "av" }

/-! ## Helper lemmas -/

/-- `addChatMessage` never grows the log past the cap. -/
theorem addChatMessage_length_le (msgs : List ChatMessage) (m : ChatMessage)
    (h : msgs.length ≤ maxChatMessages) :
    (addChatMessage msgs m).length ≤ maxChatMessages := by
  simp only [addChatMessage]
  split
  · simp only [List.length_tail, List.length_append, List.length_cons,
      List.length_nil]
    omega
  · next hl =>
    simp only [List.length_append, List.length_cons, List.length_nil] at hl ⊢
    omega

/-- Folding inserts over a log within the cap keeps it within the cap. -/
theorem foldl_addChatMessage_length_le (ms : List ChatMessage)
    (acc : List ChatMessage) (h : acc.length ≤ maxChatMessages) :
    (ms.foldl addChatMessage acc).length ≤ maxChatMessages := by
  induction ms generalizing acc with
  | nil => exact h
  | cons m rest ih => exact ih _ (addChatMessage_length_le acc m h)

/-! ## C4 — camera rectangle for surfaces within the world -/

/-- C4: for every focus position and every surface size not exceeding the
world size, the camera rectangle computed by `updateCamera` has width and
height equal to the surface dimensions, origin `clamp(focus − extent/2, 0,
worldSize − extent)` on each axis, and therefore lies within
`[0, worldSize − extent]` on each axis. -/
theorem updateCamera_clamped (w h fx fy W : ℚ) (hw : w ≤ W) (hh : h ≤ W) :
    (updateCamera w h (fx, fy) W).width = w ∧
    (updateCamera w h (fx, fy) W).height = h ∧
    (updateCamera w h (fx, fy) W).x = max 0 (min (fx - w / 2) (W - w)) ∧
    (updateCamera w h (fx, fy) W).y = max 0 (min (fy - h / 2) (W - h)) ∧
    (0 ≤ (updateCamera w h (fx, fy) W).x ∧ (updateCamera w h (fx, fy) W).x ≤ W - w) ∧
    (0 ≤ (updateCamera w h (fx, fy) W).y ∧ (updateCamera w h (fx, fy) W).y ≤ W - h) := by
  refine ⟨rfl, rfl, rfl, rfl, ⟨le_max_left _ _, ?_⟩, ⟨le_max_left _ _, ?_⟩⟩
  · exact max_le (by linarith) (min_le_right _ _)
  · exact max_le (by linarith) (min_le_right _ _)

/-- Witness for `updateCamera_clamped` at an 800×600 surface, focus
(100, 2000), world 2048. -/
theorem updateCamera_clamped_witness :
    (updateCamera 800 600 (100, 2000) 2048).width = 800 ∧
    (updateCamera 800 600 (100, 2000) 2048).height = 600 ∧
    (updateCamera 800 600 (100, 2000) 2048).x =
      max 0 (min (100 - 800 / 2) (2048 - 800)) ∧
    (updateCamera 800 600 (100, 2000) 2048).y =
      max 0 (min (2000 - 600 / 2) (2048 - 600)) ∧
    (0 ≤ (updateCamera 800 600 (100, 2000) 2048).x ∧
      (updateCamera 800 600 (100, 2000) 2048).x ≤ 2048 - 800) ∧
    (0 ≤ (updateCamera 800 600 (100, 2000) 2048).y ∧
      (updateCamera 800 600 (100, 2000) 2048).y ≤ 2048 - 600) :=
  updateCamera_clamped 800 600 100 2000 2048 (by norm_num) (by norm_num)

/-! ## C10 — camera origin in the degenerate (surface > world) case -/

/-- C10: for every focus position and surface size, the camera origin is
non-negative on both axes, and on an axis whose surface extent exceeds the
world size the origin is exactly 0 — the outer `Math.max(0, ·)` overrides
the negative upper bound `worldSize − extent`. -/
theorem camera_origin_nonneg (w h fx fy W : ℚ) :
    0 ≤ (updateCamera w h (fx, fy) W).x ∧
    0 ≤ (updateCamera w h (fx, fy) W).y ∧
    (W < w → (updateCamera w h (fx, fy) W).x = 0) ∧
    (W < h → (updateCamera w h (fx, fy) W).y = 0) := by
  refine ⟨le_max_left _ _, le_max_left _ _, fun hW => ?_, fun hW => ?_⟩
  · exact max_eq_left ((min_le_right _ _).trans (by linarith))
  · exact max_eq_left ((min_le_right _ _).trans (by linarith))

/-- Witness for `camera_origin_nonneg`: a 4096×600 surface on the 2048
world pins the x origin to 0. -/
theorem camera_origin_nonneg_witness :
    0 ≤ (updateCamera 4096 600 (100, 100) 2048).x ∧
    0 ≤ (updateCamera 4096 600 (100, 100) 2048).y ∧
    (updateCamera 4096 600 (100, 100) 2048).x = 0 :=
  ⟨(camera_origin_nonneg 4096 600 100 100 2048).1,
   (camera_origin_nonneg 4096 600 100 100 2048).2.1,
   (camera_origin_nonneg 4096 600 100 100 2048).2.2.1 (by norm_num)⟩

/-! ## C7 — chat log bound and eviction -/

/-- C7: after every sequence of chat inserts the log holds at most 50
entries, and an insert into a full (50-entry) log evicts exactly the oldest
entry, preserving the relative order of the remaining entries and appending
the new one. -/
theorem chat_log_bounded :
    (∀ ms : List ChatMessage, (ms.foldl addChatMessage []).length ≤ maxChatMessages) ∧
    (∀ (msgs : List ChatMessage) (m : ChatMessage),
      msgs.length = maxChatMessages →
        addChatMessage msgs m = msgs.tail ++ [m] ∧
        (addChatMessage msgs m).length = maxChatMessages) := by
  constructor
  · intro ms
    exact foldl_addChatMessage_length_le ms [] (by simp [maxChatMessages])
  · intro msgs m hlen
    have hne : msgs ≠ [] := by
      intro hnil
      rw [hnil] at hlen
      simp [maxChatMessages] at hlen
    have htail : (msgs ++ [m]).tail = msgs.tail ++ [m] := by
      cases msgs with
      | nil => exact absurd rfl hne
      | cons a rest => simp
    have hcond : maxChatMessages < (msgs ++ [m]).length := by
      simp [hlen]
    have heq : addChatMessage msgs m = msgs.tail ++ [m] := by
      simp only [addChatMessage]
      rw [if_pos hcond, htail]
    refine ⟨heq, ?_⟩
    rw [heq]
    simp only [List.length_append, List.length_tail, List.length_cons,
      List.length_nil, hlen, maxChatMessages]

/-- Witness for `chat_log_bounded`: 51 inserts stay within the cap, and the
51st insert into a full log drops the oldest entry. -/
theorem chat_log_bounded_witness :
    ((List.replicate 51 sampleMsg).foldl addChatMessage []).length ≤ maxChatMessages ∧
    addChatMessage (List.replicate 50 sampleMsg) sampleMsg =
      (List.replicate 50 sampleMsg).tail ++ [sampleMsg] :=
  ⟨chat_log_bounded.1 _,
   (chat_log_bounded.2 (List.replicate 50 sampleMsg) sampleMsg (by simp [maxChatMessages])).1⟩

/-- `handlePlayerLeft` deletes the departing player's active emote record,
whichever branch of the chat notification is taken. -/
theorem handlePlayerLeft_activeEmotes (g : GameState) (pid ts : String) :
    (handlePlayerLeft g pid ts).activeEmotes =
      fun id => if id = pid then none else g.activeEmotes id := by
  cases hobj : objGet g.players pid <;> simp [handlePlayerLeft, hobj]

/-- `handlePlayerLeft` leaves the pending emote timers untouched. -/
theorem handlePlayerLeft_emoteTimers (g : GameState) (pid ts : String) :
    (handlePlayerLeft g pid ts).emoteTimers = g.emoteTimers := by
  cases hobj : objGet g.players pid <;> simp [handlePlayerLeft, hobj]

/-- Firing an emote-removal callback for a player with no active emote
record leaves the state unchanged (`delete` of an absent key). -/
theorem fireEmoteTimer_noop (g : GameState) (pid : String)
    (h : g.activeEmotes pid = none) : fireEmoteTimer g pid = g := by
  unfold fireEmoteTimer
  have he : (fun id => if id = pid then none else g.activeEmotes id) =
      g.activeEmotes := by
    funext id
    by_cases hid : id = pid
    · subst hid
      simp [h]
    · simp [hid]
  rw [he]

/-- Deleting an absent key from a JS-object table is a no-op. -/
theorem objDelete_noop {α : Type} (l : List (String × α)) (k : String)
    (h : objGet l k = none) : objDelete l k = l := by
  induction l with
  | nil => rfl
  | cons kv rest ih =>
      obtain ⟨k', v⟩ := kv
      simp only [objGet] at h
      by_cases hk : k = k'
      · simp [hk] at h
      · simp only [hk, if_false] at h
        simp only [objDelete, List.filter_cons]
        have : (decide (k' ≠ k)) = true := by
          simp [Ne.symm hk]
        rw [this]
        simp only [if_true]
        have := ih h
        simp only [objDelete] at this
        rw [this]

/-! ## C1, C6 — movement intents -/

/-- Every direction `movementKeys` can produce. -/
theorem movementKeys_direction (code d : String) (h : movementKeys code = some d) :
    d = "up" ∨ d = "down" ∨ d = "left" ∨ d = "right" := by
  simp only [movementKeys] at h
  split_ifs at h <;> simp_all

/-- C1 counterexample: the handled key-down of the mapped movement key
`ArrowUp` sends `{action: 'move', direction: 'up'}` — a direction outside
`{north, south, east, west}`. -/
theorem move_direction_not_compass :
    (handleKeyDown inputReady "ArrowUp").2 = [ClientMessage.move "up"] ∧
    ¬ ("up" = "north" ∨ "up" = "south" ∨ "up" = "east" ∨ "up" = "west") := by
  constructor
  · rfl
  · decide

/-- C1 (amended): every message sent by a handled key-down of a mapped
movement key is `{action: 'move', direction: d}` with `d` one of
`up`/`down`/`left`/`right`. -/
theorem move_direction_in_key_set (g : GameState) (code : String)
    (m : ClientMessage) (hm : m ∈ (handleKeyDown g code).2) :
    ∃ d, m = ClientMessage.move d ∧
      (d = "up" ∨ d = "down" ∨ d = "left" ∨ d = "right") := by
  simp only [handleKeyDown] at hm
  by_cases hd : isDigitCode code
  · simp [hd] at hm
  · simp only [hd, Bool.false_eq_true, if_false] at hm
    rcases hk : movementKeys code with _ | d
    · rw [hk] at hm
      simp at hm
    · rw [hk] at hm
      simp only [sendMoveCommand] at hm
      split_ifs at hm with hs
      · simp only [List.mem_singleton] at hm
        exact ⟨d, hm, movementKeys_direction code d hk⟩
      · simp at hm

/-- Witness for `move_direction_in_key_set` at the `ArrowLeft` key-down on
the ready client. -/
theorem move_direction_in_key_set_witness :
    ∃ d, ClientMessage.move "left" = ClientMessage.move d ∧
      (d = "up" ∨ d = "down" ∨ d = "left" ∨ d = "right") :=
  move_direction_in_key_set inputReady "ArrowLeft" (ClientMessage.move "left")
    (by decide)

/-- C6 counterexample: the sequence down(ArrowUp), down(ArrowDown),
up(ArrowDown) emits `[move "up", move "down"]`, not
`[move(north), move(south)]`. -/
theorem key_sequence_not_compass :
    (runKeyEvents inputReady
        [KeyEvent.down "ArrowUp", KeyEvent.down "ArrowDown",
         KeyEvent.up "ArrowDown"]).2 ≠
      [ClientMessage.move "north", ClientMessage.move "south"] := by
  decide

/-- C6 (amended): down(ArrowUp), down(ArrowDown), up(ArrowDown) emits
exactly `[move "up", move "down"]` — releasing ArrowDown while ArrowUp is
still held emits nothing — and the subsequent up(ArrowUp) emits exactly
`[stop]`. -/
theorem key_sequence_up_down :
    (runKeyEvents inputReady
        [KeyEvent.down "ArrowUp", KeyEvent.down "ArrowDown",
         KeyEvent.up "ArrowDown"]).2 =
      [ClientMessage.move "up", ClientMessage.move "down"] ∧
    (runKeyEvents inputReady
        [KeyEvent.down "ArrowUp", KeyEvent.down "ArrowDown",
         KeyEvent.up "ArrowDown", KeyEvent.up "ArrowUp"]).2 =
      [ClientMessage.move "up", ClientMessage.move "down", ClientMessage.stop] := by
  constructor <;> decide

/-! ## C2 — re-triggering an emote does not cancel the pending removal -/

/-- C2 fails on the code: after the re-trigger at t = 1000 two scheduled
removals are pending for `E` (the first `setTimeout` is never cancelled),
the active record does carry the second trigger's start time, but when the
first timer fires at t = 3000 it deletes the re-triggered record, so the
progress query at t = 3500 — before the claimed expiry t = 4000 — already
reports inactive. -/
theorem emote_retrigger_not_cancelled :
    emoteRetriggerState.emoteTimers = [("E", 3000), ("E", 4000)] ∧
    emoteRetriggerState.activeEmotes "E" =
      some { emoteKind := "dance", startTime := 1000 } ∧
    emoteProgress (runDueTimers emoteRetriggerState 3000) "E" 3500 = none := by
  refine ⟨rfl, rfl, rfl⟩

/-! ## C8 — removing an entity removes its effect; stale timer is a no-op -/

/-- C8: after triggering an emote for a player and then handling
`player_left` for that player, every progress query for it reports
inactive; the removal scheduled by the trigger is still pending and firing
it later is a no-op on the state (the record it would delete is already
absent); and handling `player_left` for an id with no player record and no
emote record leaves the state unchanged. -/
theorem player_left_clears_emote (g : GameState) (pid etype ts : String)
    (t0 : Nat) :
    (∀ now, emoteProgress (handlePlayerLeft (showEmote g pid etype t0) pid ts)
      pid now = none) ∧
    (pid, t0 + emoteDuration) ∈
      (handlePlayerLeft (showEmote g pid etype t0) pid ts).emoteTimers ∧
    fireEmoteTimer (handlePlayerLeft (showEmote g pid etype t0) pid ts) pid =
      handlePlayerLeft (showEmote g pid etype t0) pid ts ∧
    (objGet g.players pid = none → g.activeEmotes pid = none →
      handlePlayerLeft g pid ts = g) := by
  have hact : (handlePlayerLeft (showEmote g pid etype t0) pid ts).activeEmotes
      pid = none := by
    rw [handlePlayerLeft_activeEmotes]
    simp
  refine ⟨?_, ?_, ?_, ?_⟩
  · intro now
    unfold emoteProgress
    rw [hact]
  · rw [handlePlayerLeft_emoteTimers]
    simp [showEmote]
  · exact fireEmoteTimer_noop _ pid hact
  · intro hp he
    unfold handlePlayerLeft
    rw [hp]
    have hplayers : objDelete g.players pid = g.players := objDelete_noop _ _ hp
    have hemotes : (fun id => if id = pid then none else g.activeEmotes id) =
        g.activeEmotes := by
      funext id
      by_cases hid : id = pid
      · subst hid
        simp [he]
      · simp [hid]
    simp only [hplayers, hemotes]

/-- Witness for `player_left_clears_emote` on the freshly constructed
client. -/
theorem player_left_clears_emote_witness :
    emoteProgress (handlePlayerLeft (showEmote (initialState 800 600) "E" "wave" 0)
      "E" "10:00") "E" 3500 = none ∧
    handlePlayerLeft (initialState 800 600) "E" "10:00" = initialState 800 600 :=
  ⟨(player_left_clears_emote (initialState 800 600) "E" "wave" "10:00" 0).1 3500,
   (player_left_clears_emote (initialState 800 600) "E" "wave" "10:00" 0).2.2.2 rfl rfl⟩

/-! ## C3 — rendering before the background image has loaded -/

/-- C3 counterexample: in a state whose background image exists but has not
finished loading (`complete = false`), `render` does not leave the surface
blank — it paints the in-view player's sprite. -/
theorem render_before_load_draws_sprite :
    loadingState.worldImage = some { complete := false } ∧
    paintedSprites (render loadingState 0) ≠ [] := by
  refine ⟨rfl, ?_⟩
  norm_num [render, loadingState, loadWorldMap, joinedBeforeLoad, initialState,
    drawAvatars, drawAvatarOps, drawEmoteOps, southImages, southFrames, avDef,
    paintedSprites, paintedSpritesAux]

/-- C3 (amended): whenever the background `Image` object has not been
created (`this.worldImage` still null — the code's guard checks existence,
not load completion), `render` issues no drawing operation at all, and in
the model it is a total function, so it cannot error. -/
theorem render_no_image_blank (g : GameState) (now : Nat)
    (h : g.worldImage = none) : render g now = [] := by
  unfold render
  rw [h]

/-- Witness for `render_no_image_blank` on the freshly constructed client. -/
theorem render_no_image_blank_witness : render (initialState 800 600) 0 = [] :=
  render_no_image_blank (initialState 800 600) 0 rfl

/-! ## C5 — partial roster updates merge wholesale by id -/

/-- Reading back a key just written by `objSet`. -/
theorem objGet_objSet {α : Type} (l : List (String × α)) (k k' : String)
    (v : α) :
    objGet (objSet l k v) k' = if k' = k then some v else objGet l k' := by
  induction l with
  | nil => simp [objSet, objGet]
  | cons kv rest ih =>
      obtain ⟨k0, v0⟩ := kv
      by_cases h0 : k0 = k
      · subst h0
        simp only [objSet, if_pos rfl, objGet]
        by_cases h' : k' = k0 <;> simp [h']
      · simp only [objSet, if_neg h0, objGet]
        by_cases h' : k' = k0
        · have hk : ¬ k' = k := by
            rw [h']
            exact h0
          simp [h', hk, h0]
        · simp [h', ih]

/-- Keys not present in a JS-object table read back as absent. -/
theorem objGet_none_of_not_mem {α : Type} (l : List (String × α)) (k : String)
    (h : k ∉ l.map Prod.fst) : objGet l k = none := by
  induction l with
  | nil => rfl
  | cons kv rest ih =>
      obtain ⟨k0, v0⟩ := kv
      simp only [List.map_cons, List.mem_cons] at h
      push_neg at h
      simp only [objGet, if_neg h.1, ih h.2]

/-- Per-key semantics of the object spread `{ ...a, ...b }`: a key of `b`
reads back `b`'s value, any other key reads back `a`'s. -/
theorem mergeObjects_objGet {α : Type} (U : List (String × α))
    (a : List (String × α)) (k : String) (hU : (U.map Prod.fst).Nodup) :
    objGet (mergeObjects a U) k = jsOr (objGet U k) (objGet a k) := by
  induction U generalizing a with
  | nil => rfl
  | cons kv U' ih =>
      obtain ⟨k0, v0⟩ := kv
      simp only [List.map_cons, List.nodup_cons] at hU
      have hmerge : mergeObjects a ((k0, v0) :: U') =
          mergeObjects (objSet a k0 v0) U' := rfl
      rw [hmerge, ih _ hU.2]
      by_cases hk : k = k0
      · subst hk
        rw [objGet_none_of_not_mem U' k hU.1]
        simp [jsOr, objGet, objGet_objSet]
      · simp [jsOr, objGet, objGet_objSet, hk]

/-- `updateMyPosition` never changes the player table. -/
theorem updateMyPosition_players (g : GameState) :
    (updateMyPosition g).players = g.players := by
  cases h1 : g.myPlayerId with
  | none => simp [updateMyPosition, h1]
  | some pid =>
      cases h2 : objGet g.players pid <;> simp [updateMyPosition, h1, h2]

/-- C5: handling a `players_moved` message with partial map `U` replaces
each player whose id is a key of `U` wholesale with `U`'s record (also
when the id was not present before — an insertion), and leaves every player
whose id is not a key of `U` unchanged: the resulting table reads back, at
every id, the update's record if the id is a key of `U` and the previous
record otherwise. -/
theorem players_moved_lookup (g : GameState) (U : List (String × Player))
    (hU : (U.map Prod.fst).Nodup) (id : String) :
    objGet (handlePlayersMoved g U).players id =
      jsOr (objGet U id) (objGet g.players id) := by
  have h1 : (handlePlayersMoved g U).players = mergeObjects g.players U := by
    show (updateMyPosition { g with players := mergeObjects g.players U }).players = _
    rw [updateMyPosition_players]
  rw [h1]
  exact mergeObjects_objGet U g.players id hU

/-- Witness for `players_moved_lookup`: `a` is replaced wholesale, `b` is
left unchanged, `c` is inserted. -/
theorem players_moved_lookup_witness :
    objGet (handlePlayersMoved rosterState moveUpdate).players "a" = some pA2 ∧
    objGet (handlePlayersMoved rosterState moveUpdate).players "b" = some pB ∧
    objGet (handlePlayersMoved rosterState moveUpdate).players "c" = some pC := by
  have hU : (moveUpdate.map Prod.fst).Nodup := by
    simp [moveUpdate]
  refine ⟨?_, ?_, ?_⟩
  · rw [players_moved_lookup rosterState moveUpdate hU "a"]
    rfl
  · rw [players_moved_lookup rosterState moveUpdate hU "b"]
    rfl
  · rw [players_moved_lookup rosterState moveUpdate hU "c"]
    rfl

/-! ## C9 — west-facing sprites are the east frames, mirrored in place -/

/-- C9: a drawn west-facing entity uses the east-direction frame set, and
the`scale(-1, 1)` transform lands the sprite mirrored on exactly the device
rectangle the unflipped east-facing draw of the same entity would cover —
centred on the entity's screen x-coordinate. -/
theorem west_uses_east_mirrored (g : GameState) (player : Player) (now : Nat)
    (av : Avatar) (images : String → Option (Nat → Option LoadedImage))
    (frames : Nat → Option LoadedImage) (img : LoadedImage)
    (hfacing : player.facing = "west")
    (hav : g.avatars player.avatar = some av)
    (himgs : g.avatarImages player.avatar = some images)
    (hframes : images "east" = some frames)
    (himg : frames (player.animationFrame.getD 0) = some img)
    (hx1 : ¬ player.x - g.camera.x < -50)
    (hx2 : ¬ player.x - g.camera.x > g.camera.width + 50)
    (hy1 : ¬ player.y - g.camera.y < -50)
    (hy2 : ¬ player.y - g.camera.y > g.camera.height + 50) :
    paintedSprites (drawAvatarOps g player now) =
      [{ frame := (player.avatar, "east", player.animationFrame.getD 0)
         left := player.x - g.camera.x - 32 * ((img.width : ℚ) / (img.height : ℚ)) / 2
         top := player.y - g.camera.y - 32 / 2
         width := 32 * ((img.width : ℚ) / (img.height : ℚ))
         height := 32, mirrored := true }] ∧
    paintedSprites (drawAvatarOps g { player with facing := "east" } now) =
      [{ frame := (player.avatar, "east", player.animationFrame.getD 0)
         left := player.x - g.camera.x - 32 * ((img.width : ℚ) / (img.height : ℚ)) / 2
         top := player.y - g.camera.y - 32 / 2
         width := 32 * ((img.width : ℚ) / (img.height : ℚ))
         height := 32, mirrored := false }] := by
  have hw : (0:ℚ) ≤ 32 * ((img.width : ℚ) / (img.height : ℚ)) := by positivity
  have hcull : ¬ (player.x - g.camera.x < -50 ∨
      player.x - g.camera.x > g.camera.width + 50 ∨
      player.y - g.camera.y < -50 ∨
      player.y - g.camera.y > g.camera.height + 50) := by
    intro hor
    rcases hor with h | h | h | h
    exacts [hx1 h, hx2 h, hy1 h, hy2 h]
  constructor
  · cases hemo : g.activeEmotes player.id with
    | none =>
        simp [drawAvatarOps, hfacing, if_neg hcull, hav, himgs, hframes, himg,
          drawEmoteOps, hemo, paintedSprites, paintedSpritesAux]
        rw [min_eq_right (by linarith)]
        ring
    | some e =>
        simp [drawAvatarOps, hfacing, if_neg hcull, hav, himgs, hframes, himg,
          drawEmoteOps, hemo, paintedSprites, paintedSpritesAux]
        rw [min_eq_right (by linarith)]
        ring
  · cases hemo : g.activeEmotes player.id with
    | none =>
        simp [drawAvatarOps, hfacing, if_neg hcull, hav, himgs, hframes, himg,
          drawEmoteOps, hemo, paintedSprites, paintedSpritesAux]
        positivity
    | some e =>
        simp [drawAvatarOps, hfacing, if_neg hcull, hav, himgs, hframes, himg,
          drawEmoteOps, hemo, paintedSprites, paintedSpritesAux]
        positivity

/-- Witness for `west_uses_east_mirrored`: the west-facing player at
(100, 100) under the camera at the origin paints the east frame 0 mirrored
over device rectangle [84, 116] × [84, 116] — the same rectangle its
east-facing draw covers unmirrored. -/
theorem west_uses_east_mirrored_witness :
    paintedSprites (drawAvatarOps westState westPlayer 0) =
      [{ frame := ("av", "east", 0), left := 84, top := 84, width := 32,
         height := 32, mirrored := true }] ∧
    paintedSprites (drawAvatarOps westState { westPlayer with facing := "east" } 0) =
      [{ frame := ("av", "east", 0), left := 84, top := 84, width := 32,
         height := 32, mirrored := false }] := by
  have h := west_uses_east_mirrored westState westPlayer 0 avDef eastImages
    eastFrames { width := 32, height := 32 } rfl rfl rfl rfl rfl
    (by norm_num [westState, westPlayer, initialState])
    (by norm_num [westState, westPlayer, initialState])
    (by norm_num [westState, westPlayer, initialState])
    (by norm_num [westState, westPlayer, initialState])
  norm_num [westState, westPlayer, initialState] at h
  exact h

end MiniMMO
